import Mathlib

/-!
Shallow embedding of the reply-resolution core of src/bot.js (class
WhatsAppBot): keyword-table rebuild (loadResponses), message handling
(handleMessage), the group-policy gate (shouldRespondInGroup), the
default-reply rule (shouldSendDefaultReply), dynamic-content expansion
(processDynamicContent) and the refresh cycle.

Modelling conventions:
- JS strings are Lean `String`s, manipulated through their character
  lists.  JS truthiness of a string is explicit: the empty string is
  falsy, every other string truthy; `undefined` is `Option.none`.
- `toLowerCase` is modelled on ASCII (the only character range the
  claims exercise); `trim` removes leading/trailing whitespace.
- A JS `Map` is a list of key-value pairs in insertion order with
  unique keys; `Map.prototype.set` overwrites in place (keeping the
  original position) or appends, `Map.prototype.get` is positional
  lookup, iteration with `entries()` is the list order.
- `String.prototype.replace(new RegExp(tok, g), v)` for the literal,
  non-empty placeholder tokens of bot.js is left-to-right replacement
  of every occurrence, without rescanning replacement text inside the
  same call.
-/

namespace BotJs

/-- ASCII lowercasing of one character, modelling JS toLowerCase on the
ASCII range (bot.js line 60 and line 104 lowercase keywords and bodies). -/
def lowerChar (c : Char) : Char :=
  if 'A' ≤ c && c ≤ 'Z' then Char.ofNat (c.toNat + 32) else c

/-- Model of JS String.prototype.toLowerCase restricted to ASCII. -/
def jsLower (s : String) : String :=
  ⟨s.data.map lowerChar⟩

/-- Whitespace test used by the trim model. -/
def isWs (c : Char) : Bool :=
  c == ' ' || c == '\t' || c == '\n' || c == '\r'

/-- Model of JS String.prototype.trim: drop leading and trailing
whitespace. -/
def jsTrim (s : String) : String :=
  ⟨((s.data.dropWhile isWs).reverse.dropWhile isWs).reverse⟩

/-- The normalization applied to keywords (bot.js line 60 and line 228)
and to message bodies (line 104): toLowerCase then trim.  The source
applies it unconditionally; it takes no configuration argument. -/
def normalize (s : String) : String :=
  jsTrim (jsLower s)

/-- List-of-characters prefix test. -/
def isPrefixCh : List Char → List Char → Bool
  | [], _ => true
  | _ :: _, [] => false
  | p :: ps, c :: cs => p == c && isPrefixCh ps cs

/-- Substring occurrence test over character lists, first argument is
the pattern, second the haystack. -/
def containsCh (pat : List Char) : List Char → Bool
  | [] => isPrefixCh pat []
  | c :: cs => isPrefixCh pat (c :: cs) || containsCh pat cs

/-- Model of JS String.prototype.includes: `jsIncludes hay pat` is true
iff `pat` occurs as a contiguous substring of `hay` (bot.js line 131). -/
def jsIncludes (hay pat : String) : Bool :=
  containsCh pat.data hay.data

/-- JS truthiness of a string value. -/
def jsTruthyStr (s : String) : Bool :=
  s != ""

/-- JS truthiness of a possibly-undefined string value. -/
def jsTruthyOpt : Option String → Bool
  | none => false
  | some s => jsTruthyStr s

/-- A keyword table: the contents of the JS Map `this.responses`, as the
list of (normalized keyword, reply) entries in insertion order. -/
abbrev Table := List (String × String)

/-- Model of JS Map.prototype.get: value of the entry with the given
key, or undefined. -/
def mapGet (t : Table) (k : String) : Option String :=
  (t.find? (fun e => e.1 == k)).map (fun e => e.2)

/-- Model of JS Map.prototype.set: update the value in place if the key
is present (keeping its position in iteration order), else append. -/
def mapSet (t : Table) (k v : String) : Table :=
  if t.any (fun e => e.1 == k) then
    t.map (fun e => if e.1 == k then (k, v) else e)
  else
    t ++ [(k, v)]

/-- A spreadsheet row as delivered by the sheets API: a list of cell
strings; a missing cell is an out-of-range index. -/
abbrev Row := List String

/-- One iteration of the rebuild loop of loadResponses (bot.js lines
57-62): destructure the row into keyword and reply cells, and insert
`(keyword.toLowerCase().trim(), reply.trim())` when both cells are
present and truthy. -/
def rowStep (t : Table) (row : Row) : Table :=
  match row.get? 0, row.get? 1 with
  | some keyword, some reply =>
    if jsTruthyStr keyword && jsTruthyStr reply then
      mapSet t (normalize keyword) (jsTrim reply)
    else t
  | _, _ => t

/-- The table produced by the rebuild loop of loadResponses from a row
list: skip the first row iff hasHeader, then fold rowStep from the
cleared (empty) map. -/
def buildTable (rows : List Row) (hasHeader : Bool) : Table :=
  (rows.drop (if hasHeader then 1 else 0)).foldl rowStep []

/-- Model of addResponse (bot.js lines 227-230). -/
def addResponse (t : Table) (keyword reply : String) : Table :=
  mapSet t (normalize keyword) (jsTrim reply)

/-- The reply-lookup portion of handleMessage (bot.js lines 125-136):
`let reply = this.responses.get(messageBody)`; if that value is falsy,
scan the entries in iteration order and take the value of the first
entry whose key is a substring of the body (breaking there), else keep
the exact-lookup result.  The argument `body` is the already-normalized
message body. -/
def lookupReply (t : Table) (body : String) : Option String :=
  let exact := mapGet t body
  if jsTruthyOpt exact then exact
  else
    match t.find? (fun e => jsIncludes body e.1) with
    | some e => some e.2
    | none => exact

/-- The groupSettings configuration object (bot.js lines 311-318; the
unused maxGroupMessages field is omitted as it never reaches any
decision logic). -/
structure GroupSettings where
  respondToAll : Bool
  respondOnlyWhenMentioned : Bool
  adminOnly : Bool
  allowedGroups : List String
  sendDefaultReplyInGroups : Bool

/-- The configuration fields consumed by the resolution core (bot.js
lines 297-323).  caseSensitive is declared in the source config (line
321) and is carried here faithfully; the source never reads it. -/
structure Config where
  hasHeader : Bool
  defaultReply : Option String
  groupSettings : GroupSettings
  caseSensitive : Bool

/-- A group participant as consulted by the admin check (bot.js line
169): serialized id and isAdmin flag. -/
structure Participant where
  id : String
  isAdmin : Bool

/-- The chat fields consumed by handleMessage and the gate. -/
structure Chat where
  isGroup : Bool
  name : String
  chatId : String
  participants : List Participant

/-- The message fields consumed by handleMessage and the gate.  The JS
field `from` is rendered `fromAddr` (`from` is a Lean keyword). -/
structure Msg where
  fromAddr : String
  fromMe : Bool
  body : String
  author : String
  mentionedIds : List String

/-- The contact fields consumed by processDynamicContent; a JS
undefined name/pushname is modelled as the (falsy) empty string. -/
structure Contact where
  name : String
  pushname : String
  number : String

/-- The ambient clock values used by processDynamicContent
(toLocaleTimeString / toLocaleDateString of `new Date()`), passed in as
opaque-to-the-logic strings. -/
structure NowClock where
  timeStr : String
  dateStr : String

/-- Model of shouldRespondInGroup (bot.js lines 156-175): four checks
with early return, in source order — respondOnlyWhenMentioned, then
non-empty allowedGroups, then adminOnly, then the respondToAll flag. -/
def shouldRespondInGroup (gs : GroupSettings) (chat : Chat) (msg : Msg) : Bool :=
  if gs.respondOnlyWhenMentioned then
    decide (0 < msg.mentionedIds.length)
  else if 0 < gs.allowedGroups.length then
    gs.allowedGroups.contains chat.chatId
  else if gs.adminOnly then
    match chat.participants.find? (fun p => p.id == msg.author) with
    | some p => p.isAdmin
    | none => false
  else
    gs.respondToAll

/-- Model of shouldSendDefaultReply (bot.js lines 178-183). -/
def shouldSendDefaultReply (gs : GroupSettings) (chat : Chat) : Bool :=
  if chat.isGroup then gs.sendDefaultReplyInGroups else true

/-- Fuel-indexed left-to-right replacement of every occurrence of a
non-empty pattern, the semantics of one JS
`String.prototype.replace(new RegExp(tok, g), v)` call on the literal
placeholder tokens: replacement text is emitted and not rescanned
within the same call.  Fuel at least the haystack length is enough. -/
def replaceAllF (pat rep : List Char) : Nat → List Char → List Char
  | 0, s => s
  | _ + 1, [] => []
  | n + 1, c :: cs =>
    if isPrefixCh pat (c :: cs) then
      rep ++ replaceAllF pat rep n (List.drop (pat.length - 1) cs)
    else
      c :: replaceAllF pat rep n cs

/-- String wrapper for replaceAllF with the canonical fuel. -/
def jsReplaceAll (s pat rep : String) : String :=
  ⟨replaceAllF pat.data rep.data s.data.length s.data⟩

/-- The ordered replacements object of processDynamicContent (bot.js
lines 188-196); Object.entries iterates these string keys in insertion
order: name, time, date, phone, message, group, memberCount. -/
def replacements (contact : Contact) (msg : Msg) (chat : Chat) (clock : NowClock) :
    List (String × String) :=
  [("\x7bname\x7d",
      if jsTruthyStr contact.name then contact.name
      else if jsTruthyStr contact.pushname then contact.pushname
      else "there"),
   ("\x7btime\x7d", clock.timeStr),
   ("\x7bdate\x7d", clock.dateStr),
   ("\x7bphone\x7d", contact.number),
   ("\x7bmessage\x7d", msg.body),
   ("\x7bgroup\x7d", if chat.isGroup then chat.name else "Direct Message"),
   ("\x7bmemberCount\x7d",
      if chat.isGroup then Nat.repr chat.participants.length else "1")]

/-- Model of processDynamicContent (bot.js lines 186-204): a sequential
fold of global replacements over the replacements list, in its
insertion order. -/
def processDynamicContent (reply : String) (contact : Contact) (msg : Msg)
    (chat : Chat) (clock : NowClock) : String :=
  (replacements contact msg chat clock).foldl
    (fun acc pv => jsReplaceAll acc pv.1 pv.2) reply

/-- Reasons a message produces no reply, following the spec's
ReplyOutcome vocabulary for the silent returns of handleMessage. -/
inductive Reason where
  | selfOrBroadcastMessage
  | notInGroupScope
  | noMatchNoDefault
  deriving DecidableEq, Repr

/-- Outcome of handling one message. -/
inductive Outcome where
  | matched (text : String)
  | defaultSent (text : String)
  | suppressed (r : Reason)
  deriving DecidableEq, Repr

/-- The default-reply branch of handleMessage (bot.js lines 145-148):
send the configured defaultReply iff it is truthy and
shouldSendDefaultReply allows, else nothing. -/
def defaultOutcome (cfg : Config) (chat : Chat) : Outcome :=
  if jsTruthyOpt cfg.defaultReply && shouldSendDefaultReply cfg.groupSettings chat then
    .defaultSent (cfg.defaultReply.getD "")
  else
    .suppressed .noMatchNoDefault

/-- Model of handleMessage (bot.js lines 96-153) over a table snapshot:
skip broadcast and own messages; normalize the body; gate group
messages; look up a reply (exact then substring scan); send the
processed reply if the final reply value is truthy, else fall to the
default-reply branch. -/
def handleMessage (cfg : Config) (contact : Contact) (msg : Msg) (chat : Chat)
    (clock : NowClock) (responses : Table) : Outcome :=
  if msg.fromAddr == "status@broadcast" then .suppressed .selfOrBroadcastMessage
  else if msg.fromMe then .suppressed .selfOrBroadcastMessage
  else
    if chat.isGroup && !shouldRespondInGroup cfg.groupSettings chat msg then
      .suppressed .notInGroupScope
    else
      match lookupReply responses (normalize msg.body) with
      | some r =>
        if jsTruthyStr r then
          .matched (processDynamicContent r contact msg chat clock)
        else defaultOutcome cfg chat
      | none => defaultOutcome cfg chat

/-- The mutable-object state relevant to refresh: a heap of allocated
Map objects and the index of the Map currently referenced by
`this.responses`.  bot.js never rebinds `this.responses` after the
constructor; loadResponses mutates the Map it points to. -/
structure BotState where
  heap : List Table
  cur : Nat
  deriving DecidableEq, Repr

/-- Model of one loadResponses cycle (bot.js lines 43-69) given the
result of the sheets fetch: on a thrown fetch error, catch and leave
the state untouched; on success with a null/empty row list, leave the
state untouched; otherwise clear and repopulate the current Map in
place, which on the heap is an in-place overwrite of the entry at
index cur — no new Map is allocated and cur does not change. -/
def loadResponses (s : BotState) (fetched : Except Unit (List Row))
    (hasHeader : Bool) : BotState :=
  match fetched with
  | .error _ => s
  | .ok rows =>
    if rows.isEmpty then s
    else ⟨s.heap.set s.cur (buildTable rows hasHeader), s.cur⟩

/-- The primitive mutation sequence the rebuild performs on the shared
Map (bot.js lines 52-62): one clear, then one conditional set per data
row.  These all execute in a single synchronous segment (there is no
await between line 52 and line 64), so no lookup can interleave with
them. -/
def rebuildSteps (rows : List Row) (hasHeader : Bool) : List (Table → Table) :=
  (fun _ => ([] : Table)) ::
    (rows.drop (if hasHeader then 1 else 0)).map (fun row t => rowStep t row)

/-- Execute a sequence of primitive table mutations in order. -/
def applySteps (steps : List (Table → Table)) (t : Table) : Table :=
  steps.foldl (fun acc f => f acc) t

example : normalize "  HeLLo " = "hello" := by decide

example : buildTable [["h", "P!"], ["hi", "   "]] false =
    [("h", "P!"), ("hi", "")] := by decide

example : lookupReply [("h", "P!"), ("hi", "")] "hi" = some "P!" := by decide

example : lookupReply (buildTable [["cat", "Meow"], ["category", "CatReply"]] false)
    "category sale" = some "Meow" := by decide

example :
    processDynamicContent "\x7bmessage\x7d" ⟨"Ann", "", "123"⟩
      ⟨"g1", false, "\x7bgroup\x7d", "a1", []⟩
      ⟨true, "Devs", "c1", [⟨"a1", true⟩]⟩ ⟨"10:00", "2024-01-01"⟩ = "Devs" := by
  decide

example :
    processDynamicContent "\x7bgroup\x7d" ⟨"Ann", "", "123"⟩
      ⟨"g1", false, "hi", "a1", []⟩
      ⟨true, "\x7bmessage\x7d", "c1", [⟨"a1", true⟩]⟩ ⟨"10:00", "2024-01-01"⟩ =
      "\x7bmessage\x7d" := by
  decide

example :
    handleMessage ⟨true, some "DR", ⟨true, false, false, [], false⟩, false⟩
      ⟨"Ann", "", "123"⟩ ⟨"g1", false, "zzz", "a1", []⟩
      ⟨true, "Devs", "c1", []⟩ ⟨"10:00", "2024-01-01"⟩ [("hi", "Hello")] =
      .suppressed .noMatchNoDefault := by
  decide

example :
    handleMessage ⟨true, some "DR", ⟨true, false, false, [], false⟩, false⟩
      ⟨"Ann", "", "123"⟩ ⟨"g1", false, "zzz", "a1", []⟩
      ⟨false, "Devs", "c1", []⟩ ⟨"10:00", "2024-01-01"⟩ [("hi", "Hello")] =
      .defaultSent "DR" := by
  decide

example :
    loadResponses ⟨[[("hi", "Hello")]], 0⟩ (Except.ok [["bye", "Bye"]]) false =
      ⟨[[("bye", "Bye")]], 0⟩ := by
  decide

/-- The empty string occurs as a substring of every string. -/
theorem jsIncludes_empty (s : String) : jsIncludes s "" = true := by
  show containsCh [] s.data = true
  cases s.data with
  | nil => rfl
  | cons c cs => rfl

/-- C1, counterexample.  The claim fails when the stored reply under the
exactly-matching key is the empty string (reachable from a rebuild row
whose reply cell is whitespace-only): the exact-lookup result is falsy,
so the scan runs and an earlier entry's substring match is preferred
over the exact match. -/
theorem claim1_counterexample :
    buildTable [["h", "ReplyH"], ["hi", "   "]] false =
      [("h", "ReplyH"), ("hi", "")] ∧
    mapGet [("h", "ReplyH"), ("hi", "")] "hi" = some "" ∧
    lookupReply [("h", "ReplyH"), ("hi", "")] "hi" = some "ReplyH" ∧
    ("ReplyH" : String) ≠ "" := by
  decide

/-- C1, amended.  Whenever the normalized body exactly equals a stored
key whose stored reply is non-empty, resolution returns that stored
reply immediately and no substring scan can override it; only an
empty stored reply (falsy in JS) makes the code treat the exact match
as absent and fall through to the substring scan. -/
theorem claim1_thm (t : Table) (b r : String)
    (hget : mapGet t b = some r) (hr : r ≠ "") :
    lookupReply t b = some r := by
  simp [lookupReply, hget, jsTruthyOpt, jsTruthyStr, hr]

/-- C1, witness instantiating the amended theorem at a concrete table. -/
theorem claim1_witness :
    mapGet [("hi", "HelloReply")] "hi" = some "HelloReply" ∧
    ("HelloReply" : String) ≠ "" ∧
    lookupReply [("hi", "HelloReply")] "hi" = some "HelloReply" :=
  ⟨by decide, by decide,
    claim1_thm [("hi", "HelloReply")] "hi" "HelloReply" (by decide) (by decide)⟩

/-- C2.  When the exact lookup finds nothing, resolution returns the
reply of the first entry, in the table's list (insertion) order, whose
key is a substring of the normalized body: the table decomposes as a
prefix of non-matching entries followed by the matching entry, and the
scan returns that entry's reply. -/
theorem claim2_thm (t₁ t₂ : Table) (k r b : String)
    (hget : mapGet (t₁ ++ (k, r) :: t₂) b = none)
    (hfirst : ∀ e ∈ t₁, jsIncludes b e.1 = false)
    (hsub : jsIncludes b k = true) :
    lookupReply (t₁ ++ (k, r) :: t₂) b = some r := by
  have h1 : t₁.find? (fun e => jsIncludes b e.1) = none := by
    rw [List.find?_eq_none]
    intro x hx
    simp [hfirst x hx]
  have h2 : ((k, r) :: t₂).find? (fun e => jsIncludes b e.1) = some (k, r) :=
    List.find?_cons_of_pos _ hsub
  simp [lookupReply, hget, jsTruthyOpt, List.find?_append, h1, h2]

/-- C2, witness: the test-pinned instance — keywords inserted in order
cat then category, body category sale, resolution yields the reply for
cat. -/
theorem claim2_witness :
    mapGet (buildTable [["cat", "Meow"], ["category", "CatReply"]] false)
      "category sale" = none ∧
    lookupReply (buildTable [["cat", "Meow"], ["category", "CatReply"]] false)
      "category sale" = some "Meow" :=
  ⟨by decide,
    claim2_thm [] [("category", "CatReply")] "cat" "Meow" "category sale"
      (by decide) (by decide) (by decide)⟩

/-- C10, counterexample.  A whitespace-only keyword cell with a truthy
reply cell is stored under the empty-string key (first conjunct), but a
message with no exact match does not necessarily receive that reply:
an earlier entry whose keyword is a substring of the body wins the
scan. -/
theorem claim10_counterexample :
    buildTable [["hi", "HelloReply"], [" ", "BlankReply"]] false =
      [("hi", "HelloReply"), ("", "BlankReply")] ∧
    mapGet [("hi", "HelloReply"), ("", "BlankReply")] "hi there" = none ∧
    lookupReply [("hi", "HelloReply"), ("", "BlankReply")] "hi there" =
      some "HelloReply" ∧
    ("HelloReply" : String) ≠ "BlankReply" := by
  decide

/-- C10, amended.  Once an entry with the empty-string key is present,
every lookup with no exact match produces a matched reply (the scan
never falls through), because the empty string is a substring of every
body; the empty-key entry's own reply is returned only when no
earlier-in-order entry's keyword occurs in the body. -/
theorem claim10_thm (t : Table) (b r₀ : String)
    (hkey : ("", r₀) ∈ t) (hget : mapGet t b = none) :
    (lookupReply t b).isSome = true := by
  have hfind : (t.find? (fun e => jsIncludes b e.1)).isSome := by
    rw [List.find?_isSome]
    exact ⟨("", r₀), hkey, jsIncludes_empty b⟩
  obtain ⟨e, he⟩ := Option.isSome_iff_exists.mp hfind
  simp [lookupReply, hget, jsTruthyOpt, he]

/-- C10, witness instantiating the amended theorem at a concrete table. -/
theorem claim10_witness :
    (("" : String), ("BlankReply" : String)) ∈
      [("hi", "HelloReply"), ("", "BlankReply")] ∧
    mapGet [("hi", "HelloReply"), ("", "BlankReply")] "zzz" = none ∧
    (lookupReply [("hi", "HelloReply"), ("", "BlankReply")] "zzz").isSome = true :=
  ⟨by decide, by decide,
    claim10_thm [("hi", "HelloReply"), ("", "BlankReply")] "zzz" "BlankReply"
      (by decide) (by decide)⟩

/-- C3, counterexample.  The source normalizes unconditionally
(toLowerCase then trim, bot.js lines 60 and 104); the caseSensitive
config flag is never consulted.  With caseSensitive set to true, a
stored keyword Hello is stored under the key hello and an incoming body
hello exact-matches it, contrary to the claim. -/
theorem claim3_counterexample :
    buildTable [["Hello", "Hi"]] false = [("hello", "Hi")] ∧
    normalize "Hello" = normalize "hello" ∧
    handleMessage ⟨false, none, ⟨true, false, false, [], false⟩, true⟩
      ⟨"Ann", "", "123"⟩ ⟨"g1", false, "hello", "a1", []⟩
      ⟨false, "DM", "c1", []⟩ ⟨"10:00", "2024-01-01"⟩
      (buildTable [["Hello", "Hi"]] false) = .matched "Hi" := by
  decide

/-- C3, amended.  Normalization of keywords and bodies always both
trims and case-folds, whatever value caseSensitive has: message
handling is invariant under the caseSensitive field (first conjunct,
for every configuration and input), and the keyword Hello normalizes to
hello (second conjunct), so it exact-matches an incoming hello even
when caseSensitive is true. -/
theorem claim3_thm (cfg : Config) (b : Bool) (contact : Contact) (msg : Msg)
    (chat : Chat) (clock : NowClock) (t : Table) :
    handleMessage ⟨cfg.hasHeader, cfg.defaultReply, cfg.groupSettings, b⟩
      contact msg chat clock t = handleMessage cfg contact msg chat clock t ∧
    normalize "Hello" = "hello" :=
  ⟨rfl, by decide⟩

/-- C4, counterexample.  With an empty allowedGroups list the
allow-list branch of shouldRespondInGroup is skipped (its guard is
`allowedGroups.length > 0`), and with the remaining toggles at their
source defaults (respondToAll true) the gate allows a group message:
it behaves exactly as RespondToAll, not as deny-all. -/
theorem claim4_counterexample :
    shouldRespondInGroup ⟨true, false, false, [], false⟩
      ⟨true, "Devs", "group1", []⟩ ⟨"g1", false, "hi", "a1", []⟩ = true := by
  decide

/-- C4, amended.  An empty allow-list does not select a deny-all
allow-list mode: the branch is skipped entirely and evaluation falls
through, so with the mention and admin toggles unset the gate returns
the respondToAll flag — under the source's default configuration
(respondToAll true) it responds to every group message. -/
theorem claim4_thm (gs : GroupSettings) (chat : Chat) (msg : Msg)
    (hm : gs.respondOnlyWhenMentioned = false)
    (ha : gs.allowedGroups = [])
    (hd : gs.adminOnly = false) :
    shouldRespondInGroup gs chat msg = gs.respondToAll := by
  simp [shouldRespondInGroup, hm, ha, hd]

/-- C4, witness instantiating the amended theorem at a concrete
configuration. -/
theorem claim4_witness :
    (⟨true, false, false, [], false⟩ : GroupSettings).respondOnlyWhenMentioned = false ∧
    shouldRespondInGroup ⟨true, false, false, [], false⟩
      ⟨true, "Devs", "group1", []⟩ ⟨"g1", false, "hi", "a1", []⟩ =
      (⟨true, false, false, [], false⟩ : GroupSettings).respondToAll :=
  ⟨by decide,
    claim4_thm ⟨true, false, false, [], false⟩
      ⟨true, "Devs", "group1", []⟩ ⟨"g1", false, "hi", "a1", []⟩
      (by decide) (by decide) (by decide)⟩

/-- The four group-policy modes named by the spec. -/
inductive Mode where
  | mentionOnly
  | allowListOnly
  | adminOnly
  | respondToAll
  deriving DecidableEq, Repr

/-- Spec-side definition (section 4.3): the single mode an evaluation
selects under the fixed precedence MentionOnly, then AllowListOnly
(active when the configured allow-list is non-empty), then AdminOnly,
then RespondToAll. -/
def specActiveMode (gs : GroupSettings) : Mode :=
  if gs.respondOnlyWhenMentioned then .mentionOnly
  else if gs.allowedGroups ≠ [] then .allowListOnly
  else if gs.adminOnly then .adminOnly
  else .respondToAll

/-- Spec-side definition (section 4.3): each mode's own rule.
MentionOnly allows iff the mentioned-ids set is non-empty; AllowListOnly
allows iff the chat id is in the allow-list; AdminOnly allows iff the
author is found among the participants and is an admin; RespondToAll
allows unconditionally. -/
def specModeEval : Mode → GroupSettings → Chat → Msg → Bool
  | .mentionOnly, _, _, msg => !msg.mentionedIds.isEmpty
  | .allowListOnly, gs, chat, _ => gs.allowedGroups.contains chat.chatId
  | .adminOnly, _, chat, msg =>
    (match chat.participants.find? (fun p => p.id == msg.author) with
     | some p => p.isAdmin
     | none => false)
  | .respondToAll, _, _, _ => true

/-- Number of mode toggles set in a configuration; the AllowListOnly
toggle counts as set when the allow-list is non-empty. -/
def toggleCount (gs : GroupSettings) : Nat :=
  (if gs.respondOnlyWhenMentioned then 1 else 0) +
    (if gs.allowedGroups ≠ [] then 1 else 0) +
    (if gs.adminOnly then 1 else 0) +
    (if gs.respondToAll then 1 else 0)

/-- C5.  Whenever more than one mode toggle is set, the gate's verdict
is exactly the verdict of the single highest-precedence active mode
(MentionOnly over AllowListOnly over AdminOnly over RespondToAll); in
particular, with both MentionOnly and RespondToAll set, the message is
allowed iff its mentioned-ids set is non-empty. -/
theorem claim5_thm (gs : GroupSettings) (chat : Chat) (msg : Msg)
    (h : 2 ≤ toggleCount gs) :
    shouldRespondInGroup gs chat msg =
      specModeEval (specActiveMode gs) gs chat msg ∧
    (gs.respondOnlyWhenMentioned = true → gs.respondToAll = true →
      (shouldRespondInGroup gs chat msg = true ↔ msg.mentionedIds ≠ [])) := by
  cases hm : gs.respondOnlyWhenMentioned with
  | true =>
    constructor
    · simp only [shouldRespondInGroup, specActiveMode, specModeEval, hm, if_true]
      cases msg.mentionedIds <;> simp
    · intro _ _
      simp only [shouldRespondInGroup, hm, if_true]
      cases msg.mentionedIds <;> simp
  | false =>
    refine ⟨?_, by simp [hm]⟩
    cases ha : gs.allowedGroups with
    | cons a as => simp [shouldRespondInGroup, specActiveMode, specModeEval, hm, ha]
    | nil =>
      cases hd : gs.adminOnly with
      | true => simp [shouldRespondInGroup, specActiveMode, specModeEval, hm, ha, hd]
      | false =>
        exfalso
        simp [toggleCount, hm, ha, hd] at h
        split at h <;> omega

/-- C5, witness: MentionOnly and RespondToAll both set, a mention
present, at concrete inputs. -/
theorem claim5_witness :
    2 ≤ toggleCount ⟨true, true, false, [], false⟩ ∧
    (shouldRespondInGroup ⟨true, true, false, [], false⟩
        ⟨true, "Devs", "group1", []⟩ ⟨"g1", false, "hi", "a1", ["bot"]⟩ =
      specModeEval (specActiveMode ⟨true, true, false, [], false⟩)
        ⟨true, true, false, [], false⟩
        ⟨true, "Devs", "group1", []⟩ ⟨"g1", false, "hi", "a1", ["bot"]⟩ ∧
    ((⟨true, true, false, [], false⟩ : GroupSettings).respondOnlyWhenMentioned = true →
      (⟨true, true, false, [], false⟩ : GroupSettings).respondToAll = true →
      (shouldRespondInGroup ⟨true, true, false, [], false⟩
          ⟨true, "Devs", "group1", []⟩ ⟨"g1", false, "hi", "a1", ["bot"]⟩ = true ↔
        (["bot"] : List String) ≠ []))) :=
  ⟨by decide,
    claim5_thm ⟨true, true, false, [], false⟩
      ⟨true, "Devs", "group1", []⟩ ⟨"g1", false, "hi", "a1", ["bot"]⟩ (by decide)⟩

/-- C6, counterexample.  A successful refresh does not install a new
table: the heap still holds exactly one Map afterwards, the current
reference is unchanged, and the contents of the Map the readers hold
(heap index 0) have been overwritten in place — the old entries are
gone from the very object a reader's reference points to. -/
theorem claim6_counterexample :
    loadResponses ⟨[[("hi", "Hello")]], 0⟩ (Except.ok [["bye", "Bye"]]) false =
      ⟨[[("bye", "Bye")]], 0⟩ ∧
    ([("bye", "Bye")] : Table) ≠ [("hi", "Hello")] := by
  decide

/-- C6, amended.  The refresh mutates the single shared Map in place
(clear, then one conditional set per row) instead of swapping in a new
table; but the whole mutation sequence runs in one synchronous segment
of loadResponses (no await between the clear and the last set), and
executing that entire sequence from any prior contents yields exactly
the fully rebuilt table — so a lookup, which can only run before or
after the segment, observes either the fully-old or the fully-new
contents, never a partially rebuilt mixture. -/
theorem claim6_thm (rows : List Row) (hasHeader : Bool) (t₀ : Table) :
    applySteps (rebuildSteps rows hasHeader) t₀ = buildTable rows hasHeader := by
  show List.foldl (fun acc f => f acc) t₀ (rebuildSteps rows hasHeader) =
    buildTable rows hasHeader
  simp only [rebuildSteps, List.foldl_cons, List.foldl_map]
  rfl

/-- C7.  A refresh cycle whose fetch fails leaves the bot state exactly
as it was: the heap and the current-table reference are untouched, so
every prior entry is still present with its prior reply; the error is
consumed inside loadResponses (the model is a total function into the
unchanged state, mirroring the catch block at bot.js lines 66-68). -/
theorem claim7_thm (s : BotState) (hasHeader : Bool) :
    loadResponses s (Except.error ()) hasHeader = s :=
  rfl

/-- C8.  With a configured (truthy) defaultReply and no keyword match,
a gate-approved group message under sendDefaultReplyInGroups = false is
suppressed with NoMatchNoDefault, while the identical message in a
direct chat yields DefaultSent with the configured default reply. -/
theorem claim8_thm (cfg : Config) (contact : Contact) (msg : Msg)
    (chatG chatD : Chat) (clock : NowClock) (t : Table) (d : String)
    (hb : msg.fromAddr ≠ "status@broadcast") (hme : msg.fromMe = false)
    (hd : cfg.defaultReply = some d) (hdne : d ≠ "")
    (hnm : lookupReply t (normalize msg.body) = none)
    (hgG : chatG.isGroup = true)
    (hgate : shouldRespondInGroup cfg.groupSettings chatG msg = true)
    (hflag : cfg.groupSettings.sendDefaultReplyInGroups = false)
    (hgD : chatD.isGroup = false) :
    handleMessage cfg contact msg chatG clock t = .suppressed .noMatchNoDefault ∧
    handleMessage cfg contact msg chatD clock t = .defaultSent d := by
  constructor
  · simp [handleMessage, hb, hme, hgG, hgate, hnm, defaultOutcome,
      shouldSendDefaultReply, hflag]
  · simp [handleMessage, hb, hme, hgD, hnm, defaultOutcome,
      shouldSendDefaultReply, hd, jsTruthyOpt, jsTruthyStr, hdne]

/-- C8, witness at concrete inputs: default reply DR, table with the
single keyword hi, body zzz (no match), gate passing via respondToAll. -/
theorem claim8_witness :
    lookupReply [("hi", "Hello")] (normalize "zzz") = none ∧
    handleMessage ⟨true, some "DR", ⟨true, false, false, [], false⟩, false⟩
      ⟨"Ann", "", "123"⟩ ⟨"g1", false, "zzz", "a1", []⟩
      ⟨true, "Devs", "c1", []⟩ ⟨"10:00", "2024-01-01"⟩ [("hi", "Hello")] =
      .suppressed .noMatchNoDefault ∧
    handleMessage ⟨true, some "DR", ⟨true, false, false, [], false⟩, false⟩
      ⟨"Ann", "", "123"⟩ ⟨"g1", false, "zzz", "a1", []⟩
      ⟨false, "Dm", "c2", []⟩ ⟨"10:00", "2024-01-01"⟩ [("hi", "Hello")] =
      .defaultSent "DR" := by
  refine ⟨by decide, ?_, ?_⟩
  · exact (claim8_thm ⟨true, some "DR", ⟨true, false, false, [], false⟩, false⟩
      ⟨"Ann", "", "123"⟩ ⟨"g1", false, "zzz", "a1", []⟩
      ⟨true, "Devs", "c1", []⟩ ⟨false, "Dm", "c2", []⟩ ⟨"10:00", "2024-01-01"⟩
      [("hi", "Hello")] "DR" (by decide) (by decide) (by decide) (by decide)
      (by decide) (by decide) (by decide) (by decide) (by decide)).1
  · exact (claim8_thm ⟨true, some "DR", ⟨true, false, false, [], false⟩, false⟩
      ⟨"Ann", "", "123"⟩ ⟨"g1", false, "zzz", "a1", []⟩
      ⟨true, "Devs", "c1", []⟩ ⟨false, "Dm", "c2", []⟩ ⟨"10:00", "2024-01-01"⟩
      [("hi", "Hello")] "DR" (by decide) (by decide) (by decide) (by decide)
      (by decide) (by decide) (by decide) (by decide) (by decide)).2

/-- The seven placeholder tokens recognized by processDynamicContent,
in the iteration order of the source's replacements object. -/
def placeholderTokens : List String :=
  ["\x7bname\x7d", "\x7btime\x7d", "\x7bdate\x7d", "\x7bphone\x7d",
   "\x7bmessage\x7d", "\x7bgroup\x7d", "\x7bmemberCount\x7d"]

/-- A template mentions none of the recognized placeholder tokens. -/
def noTokens (s : String) : Bool :=
  placeholderTokens.all (fun tok => !jsIncludes s tok)

/-- Replacement is the identity when the pattern does not occur. -/
theorem replaceAllF_of_not_contains (pat rep : List Char) :
    ∀ (n : Nat) (s : List Char), containsCh pat s = false →
      replaceAllF pat rep n s = s := by
  intro n
  induction n with
  | zero =>
    intro s _
    rfl
  | succ n ih =>
    intro s hs
    cases s with
    | nil => rfl
    | cons c cs =>
      simp only [containsCh, Bool.or_eq_false_iff] at hs
      simp [replaceAllF, hs.1, ih cs hs.2]

/-- String-level version of replaceAllF_of_not_contains. -/
theorem jsReplaceAll_of_not_includes (s pat rep : String)
    (h : jsIncludes s pat = false) : jsReplaceAll s pat rep = s := by
  obtain ⟨l⟩ := s
  show String.mk (replaceAllF pat.data rep.data l.length l) = String.mk l
  rw [replaceAllF_of_not_contains pat.data rep.data l.length l h]

/-- C9, counterexample.  Substitution is sequential, not single-pass:
with the message body itself being the group token, expanding the
message token first and the group token afterwards substitutes the
token that arrived inside a context value, so the result is the group
name rather than the verbatim body the claim requires. -/
theorem claim9_counterexample :
    processDynamicContent "\x7bmessage\x7d" ⟨"Ann", "", "123"⟩
      ⟨"g1", false, "\x7bgroup\x7d", "a1", []⟩
      ⟨true, "Devs", "c1", []⟩ ⟨"10:00", "2024-01-01"⟩ = "Devs" ∧
    ("Devs" : String) ≠ "\x7bgroup\x7d" := by
  decide

/-- C9, amended.  Expansion applies the seven replacements one after
another in the fixed order name, time, date, phone, message, group,
memberCount, so the result depends on that order: a token occurring
inside a substituted value is itself substituted when its own step
comes later (body containing the group token, second conjunct) and is
left alone when its step came earlier (group name containing the
message token, third conjunct); a template mentioning no recognized
token is returned unchanged for every context (first conjunct). -/
theorem claim9_thm (t : String) (contact : Contact) (msg : Msg)
    (chat : Chat) (clock : NowClock) (h : noTokens t = true) :
    processDynamicContent t contact msg chat clock = t ∧
    processDynamicContent "\x7bmessage\x7d" ⟨"Ann", "", "123"⟩
      ⟨"g1", false, "\x7bgroup\x7d", "a1", []⟩ ⟨true, "Devs", "c1", []⟩
      ⟨"10:00", "2024-01-01"⟩ = "Devs" ∧
    processDynamicContent "\x7bgroup\x7d" ⟨"Ann", "", "123"⟩
      ⟨"g1", false, "hi", "a1", []⟩ ⟨true, "\x7bmessage\x7d", "c1", []⟩
      ⟨"10:00", "2024-01-01"⟩ = "\x7bmessage\x7d" := by
  refine ⟨?_, by decide, by decide⟩
  simp only [noTokens, placeholderTokens, List.all_cons, List.all_nil,
    Bool.and_eq_true, Bool.not_eq_true'] at h
  obtain ⟨h1, h2, h3, h4, h5, h6, h7, -⟩ := h
  simp only [processDynamicContent, replacements, List.foldl]
  rw [jsReplaceAll_of_not_includes _ _ _ h1,
    jsReplaceAll_of_not_includes _ _ _ h2,
    jsReplaceAll_of_not_includes _ _ _ h3,
    jsReplaceAll_of_not_includes _ _ _ h4,
    jsReplaceAll_of_not_includes _ _ _ h5,
    jsReplaceAll_of_not_includes _ _ _ h6,
    jsReplaceAll_of_not_includes _ _ _ h7]

/-- C9, witness: a placeholder-shaped but unrecognized template passes
through expansion unchanged. -/
theorem claim9_witness :
    noTokens "\x7bfoo\x7d hello" = true ∧
    processDynamicContent "\x7bfoo\x7d hello" ⟨"Ann", "", "123"⟩
      ⟨"g1", false, "hi", "a1", []⟩ ⟨false, "DM", "c1", []⟩
      ⟨"10:00", "2024-01-01"⟩ = "\x7bfoo\x7d hello" :=
  ⟨by decide,
    (claim9_thm "\x7bfoo\x7d hello" ⟨"Ann", "", "123"⟩
      ⟨"g1", false, "hi", "a1", []⟩ ⟨false, "DM", "c1", []⟩
      ⟨"10:00", "2024-01-01"⟩ (by decide)).1⟩

end BotJs
